import Mathlib

/-!
Shallow embedding of the Brightside Shopify assistant backend
(`chat_llm.py`, `my_qdrant_utils.py`, `Backend Query DB/chat_route.py`,
`Backend Query DB/memory_store.py`) together with theorems checking the
natural-language specification against it.

External collaborators (the OpenAI chat endpoint, the embedding endpoint,
the Qdrant search backend, uuid generation and wall-clock time) are modelled
as oracle records supplied as explicit inputs; the control flow around them
is translated from the Python source.
-/

/-! ## Generic helpers: Python dict as association list, truthiness, substring -/

/-- Lookup in a Python dict modelled as an association list (`d.get(k)` /
`k in d`). Python dict keys are unique; lookups take the first match. -/
def alistGet {α : Type} (l : List (String × α)) (k : String) : Option α :=
  (l.find? (fun p => p.1 = k)).map (fun p => p.2)

/-- Python dict update `d[k] = v`: replace in place when the key exists,
otherwise append (insertion order). -/
def alistSet {α : Type} (l : List (String × α)) (k : String) (v : α) : List (String × α) :=
  if (l.find? (fun p => p.1 = k)).isSome then
    l.map (fun p => if p.1 = k then (k, v) else p)
  else
    l ++ [(k, v)]

/-- Python truthiness of an optional string: `not message` is true for
`None` and for the empty string. -/
def falsyStr : Option String → Bool
  | none => true
  | some s => s = ""

/-- Does the character list start with the pattern? -/
def charsStartWith : List Char → List Char → Bool
  | [], _ => true
  | _ :: _, [] => false
  | p :: ps, c :: cs => p = c && charsStartWith ps cs

/-- Does the character list contain the pattern as a contiguous
subsequence? -/
def charsContain (pat : List Char) : List Char → Bool
  | [] => pat.isEmpty
  | c :: cs => charsStartWith pat (c :: cs) || charsContain pat cs

/-- Python substring test `pat in s`. -/
def strContains (s pat : String) : Bool :=
  charsContain pat.data s.data

/-- Python `s.lower()` (ASCII case folding, as the keyword check needs). -/
def strLower (s : String) : String :=
  ⟨s.data.map Char.toLower⟩

/-- Drop leading whitespace characters. -/
def dropLeadingWs : List Char → List Char
  | [] => []
  | c :: cs => if c.isWhitespace then dropLeadingWs cs else c :: cs

/-- Python `s.strip()`: whitespace removed from both ends. -/
def strTrim (s : String) : String :=
  ⟨((dropLeadingWs ((dropLeadingWs s.data).reverse)).reverse)⟩

/-- chat_llm.py line 209-210: the fixed keyword set used by the
recommend heuristic. -/
def recommendKeywords : List String :=
  ["recommend", "suggest", "try", "consider", "look at"]

/-- chat_llm.py line 209-210:
`any(keyword in generated_text.lower() for keyword in [...])`. -/
def containsRecommendKeyword (generated_text : String) : Bool :=
  recommendKeywords.any (fun keyword => strContains (strLower generated_text) keyword)

/-! ## Data model: products and search hits (`my_qdrant_utils.py`) -/

/-- Product record as constructed in `query_qdrant` (my_qdrant_utils.py
lines 126-146).  The optional attributes that the code always sets to
`None` (category, tags, variants, ingredients, nutritional_info, allergens,
dietary_info, rating, review_count, metadata) are omitted as constants. -/
structure Product where
  id : String
  name : String
  description : String
  price : String
  currency : String
  image_url : String
  product_url : String
  score : ℚ
  brand : String
deriving DecidableEq, Repr

/-- A raw search hit from the Qdrant backend: point id, similarity score and
payload of display attributes. Scores (Python floats) are modelled as
rationals; only equality/structure matters to the claims. -/
structure Hit where
  id : String
  score : ℚ
  payload : List (String × String)
deriving DecidableEq, Repr

/-- my_qdrant_utils.py lines 119-146: convert one hit into a `Product`,
with `.get` fallbacks for every payload field. -/
def toProduct (hit : Hit) : Product :=
  { id := (alistGet hit.payload "id").getD ""
    name := (alistGet hit.payload "title").getD ""
    description := (alistGet hit.payload "description").getD ""
    price := (alistGet hit.payload "price").getD "0.00"
    currency := "USD"
    image_url := (alistGet hit.payload "image").getD ""
    product_url := (alistGet hit.payload "link").getD ""
    score := hit.score
    brand := "Brightside" }

/-- Network operations issued by `query_qdrant`, in order: the
collection-info fetch (`client.get_collection`) and the similarity search
(`client.search` with its limit). Both go to the Qdrant backend over HTTP. -/
inductive QdrantOp where
  | getCollection
  | search (limit : Nat)
deriving DecidableEq, Repr

/-- Oracle for one attempt's external collaborators. `firstCall` /
`secondCall` are the chat-completion responses (or provider failures),
`embed` the embedding endpoint outcome, `getCollection` the fetched
collection dimensionality (or backend failure), `searchHits` the raw
similarity-search outcome. -/
structure ModelMsgF (fc : Type) where
  content : Option String
  functionCall : Option fc
deriving DecidableEq, Repr

/-- Result of Python `eval` on the tool-call argument string when it does
produce an object: either a mapping (string keys/values, the shape the code
expects) or some non-mapping object. -/
inductive EvalObj where
  | dict (entries : List (String × String))
  | nonDict
deriving DecidableEq, Repr

/-- Outcome of `eval(message.function_call.arguments)` (chat_llm.py line
185): an object, or an exception from `eval` itself. -/
inductive EvalOutcome where
  | obj (o : EvalObj)
  | raises
deriving DecidableEq, Repr

/-- The tool-invocation descriptor on a model message: function name plus
the (modelled) outcome of evaluating its argument payload. -/
structure FunctionCall where
  name : String
  argumentsEval : EvalOutcome
deriving DecidableEq, Repr

/-- A chat-completion response message (`response.choices[0].message`). -/
abbrev ModelMsg := ModelMsgF FunctionCall

/-- Failures that can escape one `generate_chat_response` attempt.
`transient` models network-class provider failures, `malformedShape`
the AttributeError raised when a response message has no text content,
`toolArgError` the exception from `eval` on malformed tool arguments or
from `.get` on a non-mapping, `backend` any other wrapped exception. -/
inductive GenFailure where
  | transient (msg : String)
  | malformedShape (msg : String)
  | toolArgError (msg : String)
  | backend (msg : String)
deriving DecidableEq, Repr

/-- Per-attempt oracle record for all external collaborators touched by one
`generate_chat_response` attempt. -/
structure Env where
  firstCall : Except GenFailure ModelMsg
  secondCall : Except GenFailure (Option String)
  embed : Except String (List ℚ)
  getCollection : Except String Nat
  searchHits : Except String (List Hit)

/-- my_qdrant_utils.py `query_qdrant` (lines 46-158): fetch the collection
info (a network call), compare its dimensionality with the query vector's
length, raise `ValueError` on mismatch, otherwise run the similarity search
and convert hits to products.  The whole body is wrapped in
`try/except ... raise`, so failures re-raise unchanged.  `filters`, when
present, are turned into an equality-conjunction filter passed to the
backend; they do not affect the modelled outcome (the oracle decides the
hits).  Per-hit conversion cannot fail in this model (every payload field
has a `.get` fallback), matching the skip-and-log policy's happy path.
Returns the ordered network-operation trace and the result. -/
def query_qdrant (env : Env) (query_vector : List ℚ) (limit : Nat)
    (filters : Option (List (String × String))) :
    List QdrantOp × Except String (List Product) :=
  match env.getCollection with
  | .error e => ([QdrantOp.getCollection], .error e)
  | .ok collection_dim =>
    if collection_dim ≠ query_vector.length then
      ([QdrantOp.getCollection],
       .error ("Vector dimension mismatch! Collection expects "
               ++ toString collection_dim
               ++ " dimensions but query vector has "
               ++ toString query_vector.length ++ " dimensions"))
    else
      match env.searchHits with
      | .error e => ([QdrantOp.getCollection, QdrantOp.search limit], .error e)
      | .ok hits =>
        let _search_filter := filters
        ([QdrantOp.getCollection, QdrantOp.search limit], .ok (hits.map toProduct))

/-! ## Orchestrator data model (`chat_llm.py`) -/

/-- A value stored in a chat-turn dict: strings (role/content) or the
`datetime` timestamp that `ChatMessage.dict()` adds (modelled as a Nat). -/
inductive TurnVal where
  | str (s : String)
  | instant (t : Nat)
deriving DecidableEq, Repr

/-- One stored chat turn: a Python dict from keys to values. -/
abbrev TurnDict := List (String × TurnVal)

/-- A message value offered to `MemoryStore.add_message`: either a dict or
some non-dict object (the `isinstance(message, dict)` check). -/
inductive TurnMsg where
  | dict (entries : TurnDict)
  | nondict
deriving DecidableEq, Repr

/-- Read `msg[key]` as a string from a turn dict.  For turns produced by
this system the role/content values are always strings; other shapes read
as the empty string. -/
def turnStr (d : TurnDict) (key : String) : String :=
  match alistGet d key with
  | some (TurnVal.str s) => s
  | _ => ""

/-- A plain role/content message dict as sent to the chat-completions API
by `_format_messages`. -/
structure ApiMsg where
  role : String
  content : String
deriving DecidableEq, Repr

/-- An entry of the extended message list for the second generation call:
the plain dicts, the raw first-response model message appended at
chat_llm.py line 191, and the synthetic function-result turn (line 192-196,
whose `content` is `str(products)`; the product list is kept structured
here in place of its Python string rendering). -/
inductive ExtMsg where
  | plain (role content : String)
  | model (m : ModelMsg)
  | funcResult (name : String) (products : List Product)
deriving DecidableEq, Repr

/-- Tool-side operations issued by `_handle_function_call`, in order: the
embedding call and the Qdrant operations. -/
inductive ToolOp where
  | embed (question : String)
  | qdrant (op : QdrantOp)
deriving DecidableEq, Repr

/-- Trace of one `generate_chat_response` attempt: the message list of each
generation call issued, and the tool-side operations issued. -/
structure GenTrace where
  genCalls : List (List ExtMsg)
  toolOps : List ToolOp
deriving DecidableEq, Repr

/-- The structured reply (`models.ChatResponse`) as constructed at
chat_llm.py lines 231-238 and chat_route.py lines 145-149; field shapes
follow those construction sites (`models.py` itself is not in the sources,
its fields are fixed by the spec's ChatReply record). -/
structure ChatResponse where
  role : String
  content : String
  recommend : Bool
  products : Option (List Product)
  function_called : Bool
  function_name : Option String
deriving DecidableEq, Repr

/-- chat_llm.py lines 23-26. -/
def DEFAULT_SYSTEM_PROMPT : String :=
  "You are a helpful and friendly supplement recommendation assistant. \nYour goal is to help customers find the right supplements based on their health goals and symptoms.\nWhen appropriate, suggest relevant supplements from our catalog.\nBe concise, friendly, and focus on being helpful."

/-- chat_llm.py `_format_messages` (lines 62-96): system turn (the override
or the default prompt), then each history dict reduced to role/content,
then the new user turn.  The `if chat_history:` guard is redundant for the
empty list and is folded into the map. -/
def format_messages (message : String) (chat_history : List TurnDict)
    (system_prompt : Option String) : List ApiMsg :=
  let messages : List ApiMsg :=
    [{ role := "system", content := system_prompt.getD DEFAULT_SYSTEM_PROMPT }]
  let messages := messages ++ chat_history.map
    (fun msg => { role := turnStr msg "role", content := turnStr msg "content" })
  messages ++ [{ role := "user", content := message }]

/-- chat_llm.py `_handle_function_call` (lines 98-134).  For
`query_supplements`: `.get("question")` on a non-mapping raises
(AttributeError, modelled as `toolArgError`); a missing or empty question
returns `[]` without touching any backend; otherwise the embedding call and
the Qdrant query run inside `try/except`, and ANY failure there is caught
and converted to `[]`.  Any other function name returns `[]`. -/
def handle_function_call (env : Env) (function_name : String)
    (function_args : EvalObj) : List ToolOp × Except GenFailure (List Product) :=
  if function_name = "query_supplements" then
    match function_args with
    | EvalObj.nonDict =>
      ([], .error (GenFailure.toolArgError "tool arguments are not a mapping"))
    | EvalObj.dict entries =>
      match alistGet entries "question" with
      | none => ([], .ok [])
      | some question =>
        if question = "" then ([], .ok [])
        else
          match env.embed with
          | .error _ => ([ToolOp.embed question], .ok [])
          | .ok query_vector =>
            let qr := query_qdrant env query_vector 3 none
            (ToolOp.embed question :: qr.1.map ToolOp.qdrant,
             match qr.2 with
             | .error _ => .ok []
             | .ok products => .ok products)
  else ([], .ok [])

/-- One attempt of chat_llm.py `generate_chat_response` (lines 159-242,
inside the retry decorator): format the messages, issue the first
generation call; on a direct reply take its content; on a tool invocation
evaluate the arguments (an `eval` failure aborts the attempt), run the
handler, fold the result into the message list and issue the second call;
finally compute the recommend flag (`bool(products) or` keyword match) and
build the ChatResponse.  Returns the attempt trace and the outcome. -/
def generate_attempt (env : Env) (message : String)
    (chat_history : List TurnDict) (system_prompt : Option String) :
    GenTrace × Except GenFailure ChatResponse :=
  let messages := format_messages message chat_history system_prompt
  let firstList := messages.map (fun m => ExtMsg.plain m.role m.content)
  match env.firstCall with
  | .error e => ({ genCalls := [firstList], toolOps := [] }, .error e)
  | .ok m =>
    match m.functionCall with
    | none =>
      match m.content with
      | none =>
        ({ genCalls := [firstList], toolOps := [] },
         .error (GenFailure.malformedShape "first response message has no content"))
      | some c =>
        let generated_text := strTrim c
        let should_recommend := containsRecommendKeyword generated_text
        ({ genCalls := [firstList], toolOps := [] },
         .ok { role := "assistant", content := generated_text,
               recommend := should_recommend, products := none,
               function_called := false, function_name := none })
    | some fc =>
      match fc.argumentsEval with
      | EvalOutcome.raises =>
        ({ genCalls := [firstList], toolOps := [] },
         .error (GenFailure.toolArgError "eval of tool-call arguments raised"))
      | EvalOutcome.obj o =>
        let hr := handle_function_call env fc.name o
        match hr.2 with
        | .error e => ({ genCalls := [firstList], toolOps := hr.1 }, .error e)
        | .ok products =>
          let secondList := firstList ++ [ExtMsg.model m, ExtMsg.funcResult fc.name products]
          match env.secondCall with
          | .error e =>
            ({ genCalls := [firstList, secondList], toolOps := hr.1 }, .error e)
          | .ok none =>
            ({ genCalls := [firstList, secondList], toolOps := hr.1 },
             .error (GenFailure.malformedShape "second response message has no content"))
          | .ok (some c) =>
            let generated_text := strTrim c
            let should_recommend :=
              !products.isEmpty || containsRecommendKeyword generated_text
            ({ genCalls := [firstList, secondList], toolOps := hr.1 },
             .ok { role := "assistant", content := generated_text,
                   recommend := should_recommend, products := some products,
                   function_called := true, function_name := some fc.name })

/-- The tenacity retry configuration on `generate_chat_response`
(chat_llm.py line 136): `stop_after_attempt(3)`. -/
def retryStopAfterAttempt : Nat := 3

/-- chat_llm.py line 136 `wait_exponential(multiplier=1, min=4, max=10)`:
the backoff wait (seconds) before retry number `n`, exponential from a
multi-second base and capped. -/
def backoffWait (n : Nat) : Nat := min (max (1 * 2 ^ n) 4) 10

/-- The tenacity retry loop: run one attempt (environment `envs i` for
attempt `i`); return on success; on ANY exception retry while retries
remain (`fuel` counts remaining retries), else propagate the failure.
Collects every attempt's trace. -/
def retryGo (envs : Nat → Env) (message : String) (chat_history : List TurnDict)
    (system_prompt : Option String) : Nat → Nat → List GenTrace × Except GenFailure ChatResponse
  | i, 0 =>
    match generate_attempt (envs i) message chat_history system_prompt with
    | (t, r) => ([t], r)
  | i, fuel+1 =>
    match generate_attempt (envs i) message chat_history system_prompt with
    | (t, .ok resp) => ([t], .ok resp)
    | (t, .error _) =>
      match retryGo envs message chat_history system_prompt (i+1) fuel with
      | (ts, r) => (t :: ts, r)

/-- chat_llm.py `generate_chat_response` as deployed: the attempt body
wrapped in `@retry(stop=stop_after_attempt(3), wait=wait_exponential(...))`
— 1 initial attempt plus up to 2 retries. -/
def generate_chat_response (envs : Nat → Env) (message : String)
    (chat_history : List TurnDict) (system_prompt : Option String) :
    List GenTrace × Except GenFailure ChatResponse :=
  retryGo envs message chat_history system_prompt 0 (retryStopAfterAttempt - 1)

/-! ## Prompt builder and session store (`Backend Query DB/`) -/

/-- A nested preferences dict; the code only ever reads string-list values
out of it (`preferences.get("dietary", [])`), so its values are modelled as
string lists. -/
abbrev PrefDict := List (String × List String)

/-- A quiz-answer value: a list (health goals, symptoms), a nested dict
(preferences), or some other scalar answer (e.g. a budget string). -/
inductive QVal where
  | vlist (xs : List String)
  | vdict (entries : PrefDict)
  | vstr (s : String)
deriving DecidableEq, Repr

/-- A quiz-answers dict. -/
abbrev QuizDict := List (String × QVal)

/-- `d.get(key, [])` where the code then treats the value as a list of
strings; a missing key or non-list value reads as the empty list. -/
def qvalList (d : QuizDict) (key : String) : List String :=
  match alistGet d key with
  | some (QVal.vlist xs) => xs
  | _ => []

/-- `d.get(key, {})` where the code then treats the value as a dict;
a missing key or non-dict value reads as the empty dict. -/
def qvalDict (d : QuizDict) (key : String) : PrefDict :=
  match alistGet d key with
  | some (QVal.vdict entries) => entries
  | _ => []

/-- `preferences.get("dietary", [])` on the nested preferences dict. -/
def prefList (d : PrefDict) (key : String) : List String :=
  (alistGet d key).getD []

/-- chat_route.py lines 35-38: the base prompt (identical text to
`DEFAULT_SYSTEM_PROMPT`). -/
def base_prompt : String :=
  "You are a helpful and friendly supplement recommendation assistant. \nYour goal is to help customers find the right supplements based on their health goals and symptoms.\nWhen appropriate, suggest relevant supplements from our catalog.\nBe concise, friendly, and focus on being helpful."

/-- chat_route.py lines 42-54: accumulate the context lines in source
order — health goals, symptoms, dietary (the dietary line is guarded by
`if preferences:` then `if dietary:`). -/
def build_context (qa : QuizDict) : List String :=
  let health_goals := qvalList qa "health_goals"
  let symptoms := qvalList qa "symptoms"
  let preferences := qvalDict qa "preferences"
  let context : List String := []
  let context := if !health_goals.isEmpty then
      context ++ ["Health goals: " ++ String.intercalate ", " health_goals]
    else context
  let context := if !symptoms.isEmpty then
      context ++ ["Current symptoms: " ++ String.intercalate ", " symptoms]
    else context
  let context := if !preferences.isEmpty then
      (let dietary := prefList preferences "dietary"
       if !dietary.isEmpty then
         context ++ ["Dietary preferences: " ++ String.intercalate ", " dietary]
       else context)
    else context
  context

/-- chat_route.py `build_system_prompt` (lines 25-59): a falsy
`quiz_answers` (None or empty dict) yields the base prompt; otherwise the
accumulated context lines, when non-empty, are appended after an
"Additional context:" header. -/
def build_system_prompt (quiz_answers : Option QuizDict) : String :=
  match quiz_answers with
  | none => base_prompt
  | some qa =>
    if qa.isEmpty then base_prompt
    else
      let context := build_context qa
      if context.isEmpty then base_prompt
      else base_prompt ++ "\n\nAdditional context:\n" ++ String.intercalate "\n" context

/-- The in-memory session store (memory_store.py lines 14-20): `_store`
maps session ids to turn lists, `_quiz_answers` maps session ids to quiz
dicts. -/
structure MemoryStore where
  store : List (String × List TurnDict)
  quiz_answers : List (String × QuizDict)
deriving DecidableEq, Repr

/-- memory_store.py `create_session` (lines 22-35): register a fresh id
(uuid4 is modelled as the caller-supplied `fresh_id`) with an empty turn
list. -/
def MemoryStore.create_session (ms : MemoryStore) (fresh_id : String) :
    MemoryStore × String :=
  ({ ms with store := alistSet ms.store fresh_id [] }, fresh_id)

/-- memory_store.py `add_message` (lines 37-64): a missing session is first
auto-created with an empty turn list; then the message must be a dict
containing the keys "role" and "content" (values are NOT inspected), else a
`ValueError` is raised; a valid message is appended to the session's list. -/
def MemoryStore.add_message (ms : MemoryStore) (session_id : String)
    (message : TurnMsg) : MemoryStore × Except String Unit :=
  let ms1 := if (alistGet ms.store session_id).isSome then ms
             else { ms with store := alistSet ms.store session_id [] }
  match message with
  | TurnMsg.nondict =>
    (ms1, .error "Message must be a dict with role and content keys")
  | TurnMsg.dict entries =>
    if (alistGet entries "role").isNone || (alistGet entries "content").isNone then
      (ms1, .error "Message must be a dict with role and content keys")
    else
      let old := (alistGet ms1.store session_id).getD []
      ({ ms1 with store := alistSet ms1.store session_id (old ++ [entries]) }, .ok ())

/-- memory_store.py `get_messages` (lines 66-90): the session's turn list,
or the empty list for an unknown session (no session is created). -/
def MemoryStore.get_messages (ms : MemoryStore) (session_id : String) : List TurnDict :=
  (alistGet ms.store session_id).getD []

/-- memory_store.py `store_quiz_answers` (lines 129-149) for dict-shaped
answers (the only shape the route passes after its truthiness check). -/
def MemoryStore.store_quiz_answers (ms : MemoryStore) (session_id : String)
    (answers : QuizDict) : MemoryStore :=
  { ms with quiz_answers := alistSet ms.quiz_answers session_id answers }

/-- memory_store.py `get_quiz_answers` (lines 151-171):
`self._quiz_answers.get(session_id)`. -/
def MemoryStore.get_quiz_answers (ms : MemoryStore) (session_id : String) :
    Option QuizDict :=
  alistGet ms.quiz_answers session_id

/-! ## The chat route (`Backend Query DB/chat_route.py`) -/

/-- An element of a request's `messages` array; only its optional
`content` field is read (`last_msg.get("content")`). -/
structure MsgEntry where
  content : Option String
deriving DecidableEq, Repr

/-- The parsed JSON request body, reduced to the fields the route reads
(chat_route.py lines 74-79).  `chat_history` is read by the route but never
used (history comes from the store). -/
structure RequestData where
  message : Option String
  client_id : Option String
  session_id : Option String
  chat_history : Option (List TurnDict)
  quiz_answers : Option QuizDict
  messages : Option (List MsgEntry)
deriving DecidableEq, Repr

/-- chat_route.py lines 74-84: resolve the user message — the `message`
field, or, when that is falsy and a non-empty `messages` array is present,
the last array element's `content`. -/
def effective_message (data : RequestData) : Option String :=
  let message := data.message
  if falsyStr message then
    match data.messages with
    | some l =>
      match l.getLast? with
      | some last_msg => last_msg.content
      | none => message
    | none => message
  else message

/-- Route-level oracle: the per-attempt generation environments, the fresh
session id (uuid4) and the two `datetime.utcnow()` readings. -/
structure RouteEnv where
  genEnvs : Nat → Env
  fresh_session_id : String
  now : Nat
  now2 : Nat

/-- Failures escaping the route handler.  `missingMessage` is the
HTTPException(422) raised at chat_route.py line 87; `internal` wraps any
other exception caught by the handler's outer `except` (line 174-179,
re-raised as a 500 — transport status codes are out of scope). -/
inductive RouteFailure where
  | missingMessage
  | internal (detail : String)
deriving DecidableEq, Repr

/-- chat_route.py line 97 `sid = session_id or memory_store.create_session(client_id)`:
a falsy session id (absent or empty) creates a fresh session, otherwise the
given id is used as is. -/
def resolve_session (ms : MemoryStore) (fresh_id : String)
    (session_id : Option String) : MemoryStore × String :=
  match session_id with
  | some s => if s = "" then ms.create_session fresh_id else (ms, s)
  | none => ms.create_session fresh_id

/-- chat_route.py `chat` (lines 61-179): resolve the message (reject a
falsy one with `missingMessage` before touching the store or the model);
resolve the session (`session_id or create_session(...)`); store the user
turn; store truthy quiz answers; fetch history and stored quiz answers;
build the system prompt; call `generate_chat_response`, downgrading any of
its failures to the canned apology reply; store the assistant turn; return
the reply.  Returns the final store, the generation traces (one per
attempt, empty when no model call was issued) and the outcome. -/
def chat (ms : MemoryStore) (env : RouteEnv) (data : RequestData) :
    MemoryStore × List GenTrace × Except RouteFailure ChatResponse :=
  match effective_message data with
  | none => (ms, [], .error RouteFailure.missingMessage)
  | some message =>
    if message = "" then (ms, [], .error RouteFailure.missingMessage)
    else
      let user_message : TurnDict :=
        [("role", TurnVal.str "user"), ("content", TurnVal.str message),
         ("timestamp", TurnVal.instant env.now)]
      let sidStep := resolve_session ms env.fresh_session_id data.session_id
      let ms1 := sidStep.1
      let sid := sidStep.2
      match ms1.add_message sid (TurnMsg.dict user_message) with
      | (ms2, .error e) => (ms2, [], .error (RouteFailure.internal e))
      | (ms2, .ok _) =>
        let ms3 :=
          match data.quiz_answers with
          | some qa => if qa.isEmpty then ms2 else ms2.store_quiz_answers sid qa
          | none => ms2
        let chat_hist := ms3.get_messages sid
        let stored_quiz_answers := ms3.get_quiz_answers sid
        let system_prompt := build_system_prompt stored_quiz_answers
        let gen := generate_chat_response env.genEnvs message chat_hist (some system_prompt)
        let response : ChatResponse :=
          match gen.2 with
          | .ok resp => resp
          | .error _ =>
            { role := "assistant",
              content := "I'm sorry, I'm having trouble generating a response right now.",
              recommend := false, products := none,
              function_called := false, function_name := none }
        let assistant_message : TurnDict :=
          [("role", TurnVal.str "assistant"), ("content", TurnVal.str response.content),
           ("timestamp", TurnVal.instant env.now2)]
        match ms3.add_message sid (TurnMsg.dict assistant_message) with
        | (ms4, .error e) => (ms4, gen.1, .error (RouteFailure.internal e))
        | (ms4, .ok _) => (ms4, gen.1, .ok response)

/-! ## Spec-side definitions (for refinement-style claims) -/

/-- Spec-side rendering of the context block (spec section 4.2): in fixed
order, a health-goals line, a symptoms line and a dietary-preferences line,
each a comma-joined rendering present only when the corresponding list is
non-empty. -/
def spec_context_lines (qa : QuizDict) : List String :=
  (if !(qvalList qa "health_goals").isEmpty then
      ["Health goals: " ++ String.intercalate ", " (qvalList qa "health_goals")]
    else []) ++
  (if !(qvalList qa "symptoms").isEmpty then
      ["Current symptoms: " ++ String.intercalate ", " (qvalList qa "symptoms")]
    else []) ++
  (if !(prefList (qvalDict qa "preferences") "dietary").isEmpty then
      ["Dietary preferences: " ++
        String.intercalate ", " (prefList (qvalDict qa "preferences") "dietary")]
    else [])

/-- Spec-side prompt builder (spec section 4.2): absent or empty context
returns the base instruction unchanged; otherwise the rendered lines, each
on its own line and omitted entirely when its list is empty, are appended
as a block (after the block header). -/
def spec_build_system_prompt (base_instruction : String)
    (context : Option QuizDict) : String :=
  match context with
  | none => base_instruction
  | some qa =>
    if qa.isEmpty then base_instruction
    else
      let lines := spec_context_lines qa
      if lines.isEmpty then base_instruction
      else base_instruction ++ "\n\nAdditional context:\n" ++ String.intercalate "\n" lines

/-- Spec-side validity of a turn as the code actually enforces it: the
offered message is a mapping containing the keys "role" and "content"
(values are not inspected). -/
def turnHasKeys : TurnMsg → Bool
  | TurnMsg.nondict => false
  | TurnMsg.dict entries =>
    (alistGet entries "role").isSome && (alistGet entries "content").isSome

/-! ## Concrete example inputs for counterexamples and witnesses -/

/-- An oracle whose backends are all failing; used where an external
collaborator must not be reached. -/
def envUnused : Env :=
  { firstCall := .error (GenFailure.transient "unused")
    secondCall := .error (GenFailure.transient "unused")
    embed := .error "unused"
    getCollection := .error "unused"
    searchHits := .error "unused" }

/-- Oracle for the C1 witness: one direct reply containing the keyword
"try". -/
def envC1 : Env :=
  { envUnused with
    firstCall := .ok { content := some "You should try magnesium", functionCall := none } }

/-- Oracle for the C2 counterexample: the model invokes the tool, the
embedding succeeds with a vector matching the index dimensionality, and the
similarity-search call fails as a whole. -/
def envC2x : Env :=
  { firstCall := .ok
      { content := some ""
        functionCall := some
          { name := "query_supplements"
            argumentsEval := EvalOutcome.obj (EvalObj.dict [("question", "help with sleep")]) } }
    secondCall := .ok (some "Here are some options")
    embed := .ok [0, 0, 0]
    getCollection := .ok 3
    searchHits := .error "search backend down" }

/-- Oracle for the C2 witness: same tool invocation, but the embedding call
itself fails. -/
def envC2w : Env :=
  { envC2x with embed := .error "embedding backend down" }

/-- Oracle for the C3 counterexample: the model invokes the tool with an
argument payload on which `eval` raises. -/
def envC3x : Env :=
  { envUnused with
    firstCall := .ok
      { content := none
        functionCall := some
          { name := "query_supplements", argumentsEval := EvalOutcome.raises } }
    secondCall := .ok (some "unreachable") }

/-- Oracle for the C4 counterexample, attempt 1: a first response with no
text content and no tool call — a malformed (non-transient) response
shape. -/
def envC4bad : Env :=
  { envUnused with firstCall := .ok { content := none, functionCall := none } }

/-- Oracle for the C4 counterexample, attempt 2: a well-formed direct
reply. -/
def envC4good : Env :=
  { envUnused with firstCall := .ok { content := some "Hello there", functionCall := none } }

/-- Attempt sequence for the C4 counterexample: the first attempt fails
with a malformed response shape, the second succeeds. -/
def envsC4 : Nat → Env := fun i => match i with
  | 0 => envC4bad
  | _ => envC4good

/-- Oracle for the C5 witness: the fetched collection dimensionality is
1536 (the configured index), to be queried with a 2-dimensional vector. -/
def envC5 : Env := { envUnused with getCollection := .ok 1536, searchHits := .ok [] }

/-- Oracle for the C6 failing input: one direct reply "ok". -/
def envC6 : Env :=
  { envUnused with firstCall := .ok { content := some "ok", functionCall := none } }

/-- Route oracle for the C6 failing input. -/
def renvC6 : RouteEnv :=
  { genEnvs := fun _ => envC6, fresh_session_id := "f-1", now := 0, now2 := 1 }

/-- The C6 failing request: message "hi" for (new) session "s1". -/
def dataC6 : RequestData :=
  { message := some "hi", client_id := none, session_id := some "s1"
    chat_history := none, quiz_answers := none, messages := none }

/-- Route oracle for the C3 witness: every attempt's model response invokes
the tool with arguments on which `eval` raises. -/
def renvC3 : RouteEnv :=
  { genEnvs := fun _ => envC3x, fresh_session_id := "f-2", now := 0, now2 := 1 }

/-- The C3 witness request. -/
def dataC3 : RequestData :=
  { message := some "I have trouble sleeping", client_id := none, session_id := some "s7"
    chat_history := none, quiz_answers := none, messages := none }

/-- The C9 witness request: no message field, no messages array. -/
def dataC9 : RequestData :=
  { message := none, client_id := none, session_id := none
    chat_history := none, quiz_answers := none, messages := none }

/-- Route oracle for the C9 witness (never reached past validation). -/
def renvC9 : RouteEnv :=
  { genEnvs := fun _ => envUnused, fresh_session_id := "f-3", now := 0, now2 := 1 }

/-- Oracle for the C10 witness: the model invokes an undeclared function
name with a well-formed (empty) argument mapping; the second call replies. -/
def envC10 : Env :=
  { envUnused with
    firstCall := .ok
      { content := none
        functionCall := some
          { name := "lookup_weather", argumentsEval := EvalOutcome.obj (EvalObj.dict []) } }
    secondCall := .ok (some "I cannot do that.") }

/-- The empty memory store. -/
def msEmpty : MemoryStore := { store := [], quiz_answers := [] }

/-! ## Helper lemmas -/

theorem alistGet_alistSet_self {α : Type} (l : List (String × α)) (k : String) (v : α) :
    alistGet (alistSet l k v) k = some v := by
  induction l with
  | nil => simp [alistGet, alistSet]
  | cons hd tl ih =>
    by_cases hk : hd.1 = k
    · simp [alistGet, alistSet, List.find?, hk]
    · by_cases ht : (List.find? (fun p => p.1 = k) tl).isSome
      · simp [alistGet, alistSet, List.find?, hk, ht] at ih ⊢
        exact ih
      · simp [alistGet, alistSet, List.find?, hk, ht] at ih ⊢
        exact ih

theorem alistGet_alistSet_ne {α : Type} (l : List (String × α)) (k k' : String) (v : α)
    (h : k' ≠ k) : alistGet (alistSet l k v) k' = alistGet l k' := by
  have hfun : ((fun p : String × α => decide (p.1 = k')) ∘ (fun p => if p.1 = k then (k, v) else p))
      = (fun p : String × α => decide (p.1 = k')) := by
    funext p
    by_cases hp : p.1 = k
    · simp [Function.comp, hp]
    · simp [Function.comp, hp]
  unfold alistSet
  by_cases hfind : (List.find? (fun p => decide (p.1 = k)) l).isSome = true
  · simp only [hfind, if_true, alistGet, List.find?_map, hfun]
    cases hq : List.find? (fun p : String × α => decide (p.1 = k')) l with
    | none => rfl
    | some q =>
      have hq1 : q.1 = k' := by simpa using List.find?_some hq
      have hf : (if q.1 = k then (k, v) else q) = q := by
        rw [if_neg]
        rw [hq1]
        exact h
      simp [hf]
  · rw [if_neg hfind]
    simp only [alistGet, List.find?_append]
    have hsingle : List.find? (fun p : String × α => decide (p.1 = k')) [(k, v)] = none := by
      simp [Ne.symm h]
    rw [hsingle]
    cases List.find? (fun p : String × α => decide (p.1 = k')) l with
    | none => rfl
    | some q => rfl

theorem build_context_eq_spec (qa : QuizDict) : build_context qa = spec_context_lines qa := by
  by_cases hG : (qvalList qa "health_goals").isEmpty <;>
    by_cases hS : (qvalList qa "symptoms").isEmpty <;>
    by_cases hP : (qvalDict qa "preferences").isEmpty <;>
    by_cases hD : (prefList (qvalDict qa "preferences") "dietary").isEmpty <;>
    simp_all [build_context, spec_context_lines, prefList, alistGet, List.isEmpty_iff]

/-! ## Claim theorems -/

/-- Claim C7: `build_system_prompt` with absent or empty context returns the
base instruction unchanged; otherwise it appends a rendered block listing,
in fixed order, a "Health goals: ..." line (only if that list is
non-empty), a "Current symptoms: ..." line (only if non-empty) and a
"Dietary preferences: ..." line from the dietary list nested under the
preferences key (only if non-empty), each comma-joined on its own line and
omitted entirely when empty — stated as equality with the spec-side
builder. -/
theorem build_system_prompt_matches_spec (quiz_answers : Option QuizDict) :
    build_system_prompt quiz_answers = spec_build_system_prompt base_prompt quiz_answers := by
  cases quiz_answers with
  | none => rfl
  | some qa =>
    simp only [build_system_prompt, spec_build_system_prompt, build_context_eq_spec]

/-- Claim C8 counterexample: a turn whose "role" and "content" values are
both the empty string is accepted by `add_message` and appended (with the
session auto-created), while the claim requires it to fail with
`InvalidTurn` leaving the store unchanged. -/
theorem add_message_accepts_empty_role_content :
    (MemoryStore.add_message msEmpty "s1"
      (TurnMsg.dict [("role", TurnVal.str ""), ("content", TurnVal.str "")])).2
      = Except.ok () ∧
    (MemoryStore.add_message msEmpty "s1"
      (TurnMsg.dict [("role", TurnVal.str ""), ("content", TurnVal.str "")])).1
      = { store := [("s1", [[("role", TurnVal.str ""), ("content", TurnVal.str "")]])],
          quiz_answers := [] } := by
  constructor
  · rfl
  · rfl

/-- Claim C8 (amended): `add_message` rejects (with a ValueError) exactly
the turns that are not a mapping or lack the "role" or "content" key — the
values are not inspected, so empty-string role/content is accepted and
appended; on rejection no turn is appended to any session (although a
missing session id is auto-created empty first). -/
theorem add_message_keypresence (ms : MemoryStore) (session_id : String) (message : TurnMsg) :
    (turnHasKeys message = false →
      (∃ e, (ms.add_message session_id message).2 = Except.error e) ∧
      ∀ sid, ((ms.add_message session_id message).1).get_messages sid =
        ms.get_messages sid) ∧
    (∀ entries, message = TurnMsg.dict entries → turnHasKeys message = true →
      (ms.add_message session_id message).2 = Except.ok () ∧
      ((ms.add_message session_id message).1).get_messages session_id =
        ms.get_messages session_id ++ [entries]) := by
  have hnone : ¬((alistGet ms.store session_id).isSome = true) →
      alistGet ms.store session_id = none := by
    intro hx
    cases hy : alistGet ms.store session_id with
    | none => rfl
    | some w => exact absurd (by rw [hy]; rfl) hx
  have hstate : ∀ sid,
      ((if (alistGet ms.store session_id).isSome = true then ms
        else { ms with store := alistSet ms.store session_id [] }) : MemoryStore).get_messages sid
        = ms.get_messages sid := by
    intro sid
    by_cases hex : (alistGet ms.store session_id).isSome = true
    · rw [if_pos hex]
    · rw [if_neg hex]
      unfold MemoryStore.get_messages
      by_cases hsid : sid = session_id
      · subst hsid
        show (alistGet (alistSet ms.store sid []) sid).getD [] = _
        rw [alistGet_alistSet_self, hnone hex]
        rfl
      · show (alistGet (alistSet ms.store session_id []) sid).getD [] = _
        rw [alistGet_alistSet_ne ms.store session_id sid [] hsid]
  constructor
  · intro hbad
    cases message with
    | nondict =>
      refine ⟨⟨"Message must be a dict with role and content keys", ?_⟩, ?_⟩
      · rfl
      · intro sid
        exact hstate sid
    | dict entries =>
      cases hr : alistGet entries "role" with
      | none =>
        refine ⟨⟨"Message must be a dict with role and content keys", ?_⟩, ?_⟩
        · simp [MemoryStore.add_message, hr]
        · intro sid
          simp only [MemoryStore.add_message, hr]
          simpa using hstate sid
      | some rv =>
        cases hc : alistGet entries "content" with
        | none =>
          refine ⟨⟨"Message must be a dict with role and content keys", ?_⟩, ?_⟩
          · simp [MemoryStore.add_message, hr, hc]
          · intro sid
            simp only [MemoryStore.add_message, hr, hc]
            simpa using hstate sid
        | some cv =>
          exfalso
          simp [turnHasKeys, hr, hc] at hbad
  · intro entries hmsg hgood
    subst hmsg
    have hr : (alistGet entries "role").isSome = true := by
      simp [turnHasKeys] at hgood
      exact hgood.1
    have hc : (alistGet entries "content").isSome = true := by
      simp [turnHasKeys] at hgood
      exact hgood.2
    rcases Option.isSome_iff_exists.mp hr with ⟨rv, hrv⟩
    rcases Option.isSome_iff_exists.mp hc with ⟨cv, hcv⟩
    constructor
    · simp [MemoryStore.add_message, hrv, hcv]
    · by_cases hex : (alistGet ms.store session_id).isSome = true
      · simp only [MemoryStore.add_message, hrv, hcv, hex, if_true,
          Option.isNone_some, Bool.or_self, Bool.false_or, if_false]
        simp only [Bool.false_eq_true, if_false, MemoryStore.get_messages]
        rw [alistGet_alistSet_self]
        rfl
      · simp only [MemoryStore.add_message, hrv, hcv, hex, if_false,
          Option.isNone_some, Bool.or_self, Bool.false_or]
        simp only [Bool.false_eq_true, if_false, MemoryStore.get_messages]
        rw [alistGet_alistSet_self, alistGet_alistSet_self, hnone hex]
        rfl

/-- Witness for `add_message_keypresence`: at the empty store, a non-dict
message is rejected without appending, and a dict with both keys (empty
values included) is accepted. -/
theorem add_message_keypresence_witness :
    ((MemoryStore.add_message msEmpty "s9" TurnMsg.nondict).1).get_messages "s9" =
      msEmpty.get_messages "s9" ∧
    (MemoryStore.add_message msEmpty "s9"
      (TurnMsg.dict [("role", TurnVal.str "user"), ("content", TurnVal.str "hello")])).2 =
      Except.ok () := by
  refine ⟨((add_message_keypresence msEmpty "s9" TurnMsg.nondict).1 (by rfl)).2 "s9", ?_⟩
  exact ((add_message_keypresence msEmpty "s9"
    (TurnMsg.dict [("role", TurnVal.str "user"), ("content", TurnVal.str "hello")])).2
    [("role", TurnVal.str "user"), ("content", TurnVal.str "hello")] rfl (by rfl)).1

/-- Claim C9: a request whose resolved user message is absent or empty is
rejected with `missingMessage` before any model call and before any
session-store access: the store is returned unchanged and no generation
trace exists. -/
theorem chat_rejects_missing_message (ms : MemoryStore) (env : RouteEnv)
    (data : RequestData) (h : falsyStr (effective_message data) = true) :
    chat ms env data = (ms, [], Except.error RouteFailure.missingMessage) := by
  unfold chat
  cases hm : effective_message data with
  | none => rfl
  | some s =>
    rw [hm] at h
    simp only [falsyStr, decide_eq_true_eq] at h
    subst h
    simp

/-- Witness for `chat_rejects_missing_message`: a request with no message
field and no messages array. -/
theorem chat_rejects_missing_message_witness :
    chat msEmpty renvC9 dataC9 = (msEmpty, [], Except.error RouteFailure.missingMessage) :=
  chat_rejects_missing_message msEmpty renvC9 dataC9 (by rfl)

/-- Claim C5 counterexample: with a fetched index dimensionality of 1536
and a 1-dimensional query vector, `query_qdrant` does fail before the
similarity search, but only after issuing the collection-info network call
— the trace of issued network operations is non-empty, contradicting
"before any network call is issued". -/
theorem dimension_check_after_network_call :
    query_qdrant envC5 [(0 : ℚ)] 3 none =
      ([QdrantOp.getCollection],
        Except.error
          "Vector dimension mismatch! Collection expects 1536 dimensions but query vector has 1 dimensions") ∧
    [QdrantOp.getCollection] ≠ ([] : List QdrantOp) := by
  constructor
  · rfl
  · intro hx
    cases hx

/-- Claim C5 (amended): when the fetched collection dimensionality differs
from the query vector's length, `query_qdrant` fails with the
dimension-mismatch error and issues no similarity-search call — but only
after the collection-info network call used to read the dimensionality. -/
theorem dimension_mismatch_fails_before_search (env : Env) (query_vector : List ℚ)
    (limit : Nat) (filters : Option (List (String × String))) (d : Nat)
    (h1 : env.getCollection = Except.ok d) (h2 : d ≠ query_vector.length) :
    query_qdrant env query_vector limit filters =
      ([QdrantOp.getCollection],
        Except.error ("Vector dimension mismatch! Collection expects "
          ++ toString d ++ " dimensions but query vector has "
          ++ toString query_vector.length ++ " dimensions")) := by
  unfold query_qdrant
  rw [h1]
  simp [h2]

/-- Witness for `dimension_mismatch_fails_before_search`: dimensionality
1536 versus a 2-dimensional vector. -/
theorem dimension_mismatch_fails_before_search_witness :
    query_qdrant envC5 [(0 : ℚ), 1] 3 none =
      ([QdrantOp.getCollection],
        Except.error
          "Vector dimension mismatch! Collection expects 1536 dimensions but query vector has 2 dimensions") := by
  have h := dimension_mismatch_fails_before_search envC5 [(0 : ℚ), 1] 3 none 1536
    rfl (by decide)
  exact h

/-- Claim C6 (code-bug evaluation): on a fresh session with message "hi",
the message list of the FIRST generation call contains the new user turn
twice — once because the route stores the user turn before fetching the
history it passes along, and once because `_format_messages` appends the
current message again — where the claim (and the spec) require it exactly
once after the prior turns. -/
theorem chat_first_call_duplicates_user_turn :
    (chat msEmpty renvC6 dataC6).2.1 =
      [{ genCalls := [[ExtMsg.plain "system" base_prompt,
                       ExtMsg.plain "user" "hi",
                       ExtMsg.plain "user" "hi"]], toolOps := [] }] ∧
    List.countP (fun x => decide (x = ExtMsg.plain "user" "hi"))
      [ExtMsg.plain "system" base_prompt, ExtMsg.plain "user" "hi",
       ExtMsg.plain "user" "hi"] = 2 := by
  constructor
  · rfl
  · rfl

/-- Claim C4 counterexample: with a malformed first response (no content,
no tool call — a non-transient failure) on attempt one and a well-formed
response on attempt two, `generate_chat_response` retries and succeeds in
two attempts, contradicting "non-transient failures propagate immediately
without retry". -/
theorem nontransient_failure_retried :
    (generate_chat_response envsC4 "hi" [] none).1.length = 2 ∧
    (generate_chat_response envsC4 "hi" [] none).2 = Except.ok
      { role := "assistant", content := "Hello there", recommend := false,
        products := none, function_called := false, function_name := none } ∧
    (generate_attempt envC4bad "hi" [] none).2 =
      Except.error (GenFailure.malformedShape "first response message has no content") := by
  refine ⟨rfl, ?_, rfl⟩
  rfl

/-- Claim C2 counterexample: the model invokes the tool, the embedding
succeeds, and the similarity-search call fails as a whole; the failure is
swallowed inside the tool handler and the orchestration returns a normal
reply carrying an empty item list — it does not propagate, contradicting
the claim. -/
theorem search_failure_swallowed :
    (generate_chat_response (fun _ => envC2x) "m" [] none).2 = Except.ok
      { role := "assistant", content := "Here are some options",
        recommend := false, products := some [], function_called := true,
        function_name := some "query_supplements" } ∧
    envC2x.searchHits = Except.error "search backend down" := by
  constructor
  · rfl
  · rfl

/-- Claim C3 counterexample: when `eval` on the tool-call argument payload
raises, the whole attempt aborts with a tool-argument failure (and the
retries, seeing the same malformed response, exhaust), so
`generate_chat_response` propagates an error instead of treating the call
as zero items and producing a reply. -/
theorem malformed_args_abort :
    (generate_chat_response (fun _ => envC3x) "m" [] none).2 =
      Except.error (GenFailure.toolArgError "eval of tool-call arguments raised") := by
  rfl

theorem generate_attempt_ok_recommend {env : Env} {m : String} {ch : List TurnDict}
    {sp : Option String} {r : ChatResponse}
    (h : (generate_attempt env m ch sp).2 = Except.ok r) :
    r.recommend = (!(r.products.getD []).isEmpty || containsRecommendKeyword r.content) := by
  unfold generate_attempt at h
  cases hf : env.firstCall with
  | error e => simp only [hf] at h; exact Except.noConfusion h
  | ok mm =>
    simp only [hf] at h
    cases hfc : mm.functionCall with
    | none =>
      simp only [hfc] at h
      cases hc : mm.content with
      | none => simp only [hc] at h; exact Except.noConfusion h
      | some c =>
        simp only [hc, Except.ok.injEq] at h
        subst h
        simp
    | some fc =>
      simp only [hfc] at h
      cases ha : fc.argumentsEval with
      | raises => simp only [ha] at h; exact Except.noConfusion h
      | obj o =>
        simp only [ha] at h
        rcases hh : handle_function_call env fc.name o with ⟨tops, hres⟩
        rw [hh] at h
        cases hres with
        | error e => simp at h
        | ok ps =>
          cases hs : env.secondCall with
          | error e => simp only [hs] at h; exact Except.noConfusion h
          | ok oc =>
            simp only [hs] at h
            cases oc with
            | none => simp at h
            | some c =>
              simp only [Except.ok.injEq] at h
              subst h
              simp

theorem retryGo_ok_from_attempt (envs : Nat → Env) (m : String) (ch : List TurnDict)
    (sp : Option String) (r : ChatResponse) :
    ∀ (fuel i : Nat), (retryGo envs m ch sp i fuel).2 = Except.ok r →
      ∃ j, (generate_attempt (envs j) m ch sp).2 = Except.ok r := by
  intro fuel
  induction fuel with
  | zero =>
    intro i h
    simp only [retryGo] at h
    rcases hA : generate_attempt (envs i) m ch sp with ⟨t, ra⟩
    rw [hA] at h
    exact ⟨i, by rw [hA]; exact h⟩
  | succ f ih =>
    intro i h
    simp only [retryGo] at h
    rcases hA : generate_attempt (envs i) m ch sp with ⟨t, ra⟩
    rw [hA] at h
    cases ra with
    | ok resp => exact ⟨i, by rw [hA]; exact h⟩
    | error e =>
      rcases hR : retryGo envs m ch sp (i + 1) f with ⟨ts, rr⟩
      rw [hR] at h
      exact ih (i + 1) (by rw [hR]; exact h)

theorem retry_ok_of_first_attempt (envs : Nat → Env) (m : String) (ch : List TurnDict)
    (sp : Option String) (t : GenTrace) (r : ChatResponse)
    (h : generate_attempt (envs 0) m ch sp = (t, Except.ok r)) :
    generate_chat_response envs m ch sp = ([t], Except.ok r) := by
  show retryGo envs m ch sp 0 (retryStopAfterAttempt - 1) = ([t], Except.ok r)
  have : retryStopAfterAttempt - 1 = 2 := rfl
  rw [this]
  simp only [retryGo]
  rw [h]

theorem retryGo_all_error (envs : Nat → Env) (m : String) (ch : List TurnDict)
    (sp : Option String)
    (hall : ∀ i, ∃ e, (generate_attempt (envs i) m ch sp).2 = Except.error e) :
    ∀ (fuel i : Nat), ∃ e, (retryGo envs m ch sp i fuel).2 = Except.error e := by
  intro fuel
  induction fuel with
  | zero =>
    intro i
    rcases hall i with ⟨e, he⟩
    refine ⟨e, ?_⟩
    simp only [retryGo]
    rcases hA : generate_attempt (envs i) m ch sp with ⟨t, ra⟩
    rw [hA] at he
    exact he
  | succ f ih =>
    intro i
    rcases hall i with ⟨e, he⟩
    rcases hA : generate_attempt (envs i) m ch sp with ⟨t, ra⟩
    rw [hA] at he
    simp only at he
    subst he
    rcases ih (i + 1) with ⟨e', he'⟩
    refine ⟨e', ?_⟩
    simp only [retryGo]
    rw [hA]
    rcases hR : retryGo envs m ch sp (i + 1) f with ⟨ts, rr⟩
    rw [hR] at he'
    simp only at he'
    subst he'
    rfl

/-- Claim C1: every reply produced by `generate_chat_response` has
`recommend` true if and only if the tool returned at least one item or the
final reply text contains one of the fixed keywords ("recommend",
"suggest", "try", "consider", "look at") as a case-insensitive substring,
and false when neither holds — stated as a boolean equation on the
returned reply. -/
theorem generate_chat_response_recommend_iff (envs : Nat → Env) (message : String)
    (chat_history : List TurnDict) (system_prompt : Option String) (r : ChatResponse)
    (h : (generate_chat_response envs message chat_history system_prompt).2 = Except.ok r) :
    r.recommend = (!(r.products.getD []).isEmpty || containsRecommendKeyword r.content) := by
  unfold generate_chat_response at h
  rcases retryGo_ok_from_attempt envs message chat_history system_prompt r
    (retryStopAfterAttempt - 1) 0 h with ⟨j, hj⟩
  exact generate_attempt_ok_recommend hj

/-- Witness for `generate_chat_response_recommend_iff`: a direct reply
containing "try" yields `recommend = true`, matching the keyword
disjunction. -/
theorem generate_chat_response_recommend_iff_witness :
    ({ role := "assistant", content := "You should try magnesium", recommend := true,
       products := none, function_called := false,
       function_name := none } : ChatResponse).recommend =
      (!((({ role := "assistant", content := "You should try magnesium", recommend := true,
             products := none, function_called := false,
             function_name := none } : ChatResponse)).products.getD []).isEmpty ||
        containsRecommendKeyword "You should try magnesium") :=
  generate_chat_response_recommend_iff (fun _ => envC1) "help" [] none
    { role := "assistant", content := "You should try magnesium", recommend := true,
      products := none, function_called := false, function_name := none } (by rfl)

theorem retry_ok_of_first_attempt_snd (envs : Nat → Env) (m : String)
    (ch : List TurnDict) (sp : Option String) (r : ChatResponse)
    (h : (generate_attempt (envs 0) m ch sp).2 = Except.ok r) :
    (generate_chat_response envs m ch sp).2 = Except.ok r := by
  rcases hA : generate_attempt (envs 0) m ch sp with ⟨t, ra⟩
  rw [hA] at h
  simp only at h
  subst h
  rw [retry_ok_of_first_attempt envs m ch sp t r hA]

theorem handle_function_call_swallow (env : Env) (entries : List (String × String)) (q : String)
    (h5 : alistGet entries "question" = some q) (h6 : q ≠ "")
    (h7 : (∃ e, env.embed = Except.error e) ∨
          (∃ v e, env.embed = Except.ok v ∧ (query_qdrant env v 3 none).2 = Except.error e)) :
    ∃ tops, handle_function_call env "query_supplements" (EvalObj.dict entries) =
      (tops, Except.ok []) := by
  unfold handle_function_call
  rw [if_pos rfl]
  simp only [h5]
  rw [if_neg h6]
  rcases h7 with ⟨e, he⟩ | ⟨v, e, hv, hq⟩
  · rw [he]
    exact ⟨[ToolOp.embed q], rfl⟩
  · rw [hv]
    dsimp only
    rcases hqq : query_qdrant env v 3 none with ⟨qops, qres⟩
    rw [hqq] at hq
    simp only at hq
    subst hq
    exact ⟨ToolOp.embed q :: qops.map ToolOp.qdrant, rfl⟩

theorem handle_function_call_fallback (env : Env) (name : String)
    (entries : List (String × String))
    (hbranch : name ≠ "query_supplements" ∨ alistGet entries "question" = none ∨
      alistGet entries "question" = some "") :
    handle_function_call env name (EvalObj.dict entries) = ([], Except.ok []) := by
  by_cases hn : name = "query_supplements"
  · subst hn
    unfold handle_function_call
    rw [if_pos rfl]
    rcases hbranch with h | h | h
    · exact absurd rfl h
    · simp only [h]
    · simp [h]
  · unfold handle_function_call
    rw [if_neg hn]

/-- Claim C2 (amended): a whole-call failure of the embedding or the
vector-search backend during the tool invocation does NOT propagate to the
orchestrator's caller — `query_qdrant` re-raises it, but
`_handle_function_call` catches it and converts it to an empty item list,
so `generate_chat_response` still returns a normal (ungrounded) reply with
zero items. -/
theorem search_failure_not_propagated (envs : Nat → Env) (message : String)
    (chat_history : List TurnDict) (system_prompt : Option String)
    (mm : ModelMsg) (fc : FunctionCall) (entries : List (String × String)) (q s : String)
    (h1 : (envs 0).firstCall = Except.ok mm) (h2 : mm.functionCall = some fc)
    (h3 : fc.name = "query_supplements")
    (h4 : fc.argumentsEval = EvalOutcome.obj (EvalObj.dict entries))
    (h5 : alistGet entries "question" = some q) (h6 : q ≠ "")
    (h7 : (∃ e, (envs 0).embed = Except.error e) ∨
          (∃ v e, (envs 0).embed = Except.ok v ∧
            (query_qdrant (envs 0) v 3 none).2 = Except.error e))
    (h8 : (envs 0).secondCall = Except.ok (some s)) :
    (generate_chat_response envs message chat_history system_prompt).2 = Except.ok
      { role := "assistant", content := strTrim s,
        recommend := containsRecommendKeyword (strTrim s),
        products := some [], function_called := true,
        function_name := some "query_supplements" } := by
  obtain ⟨tops, htops⟩ := handle_function_call_swallow (envs 0) entries q h5 h6 h7
  apply retry_ok_of_first_attempt_snd
  unfold generate_attempt
  simp only [h1, h2, h4, h3, htops, h8]
  simp

/-- Witness for `search_failure_not_propagated`: a failing embedding call
still yields a normal reply with an empty item list. -/
theorem search_failure_not_propagated_witness :
    (generate_chat_response (fun _ => envC2w) "m" [] none).2 = Except.ok
      { role := "assistant", content := "Here are some options",
        recommend := false, products := some [], function_called := true,
        function_name := some "query_supplements" } := by
  have h := search_failure_not_propagated (fun _ => envC2w) "m" [] none
    { content := some ""
      functionCall := some
        { name := "query_supplements"
          argumentsEval := EvalOutcome.obj (EvalObj.dict [("question", "help with sleep")]) } }
    { name := "query_supplements"
      argumentsEval := EvalOutcome.obj (EvalObj.dict [("question", "help with sleep")]) }
    [("question", "help with sleep")] "help with sleep" "Here are some options"
    rfl rfl rfl rfl rfl (by decide) (Or.inl ⟨"embedding backend down", rfl⟩) rfl
  exact h

/-- Claim C10: when the model invokes an unknown function name, or invokes
`query_supplements` with an argument mapping lacking a non-empty
"question" value, the handler returns an empty item list without
contacting the embedding or search backends, and the orchestration still
issues the second generation call and returns a reply with
`function_called = true`. -/
theorem tool_fallback_empty_items (envs : Nat → Env) (message : String)
    (chat_history : List TurnDict) (system_prompt : Option String)
    (mm : ModelMsg) (fc : FunctionCall) (entries : List (String × String)) (s : String)
    (h1 : (envs 0).firstCall = Except.ok mm)
    (h2 : mm.functionCall = some fc)
    (h3 : fc.argumentsEval = EvalOutcome.obj (EvalObj.dict entries))
    (h4 : fc.name ≠ "query_supplements" ∨ alistGet entries "question" = none ∨
      alistGet entries "question" = some "")
    (h5 : (envs 0).secondCall = Except.ok (some s)) :
    ∃ t, generate_chat_response envs message chat_history system_prompt =
        ([t], Except.ok
          { role := "assistant", content := strTrim s,
            recommend := containsRecommendKeyword (strTrim s),
            products := some [], function_called := true,
            function_name := some fc.name }) ∧
      t.toolOps = [] ∧ t.genCalls.length = 2 := by
  have hfb := handle_function_call_fallback (envs 0) fc.name entries h4
  refine ⟨{ genCalls := [List.map (fun mg => ExtMsg.plain mg.role mg.content) (format_messages message chat_history system_prompt), List.map (fun mg => ExtMsg.plain mg.role mg.content) (format_messages message chat_history system_prompt) ++ [ExtMsg.model mm, ExtMsg.funcResult fc.name []]], toolOps := [] }, ?_, rfl, rfl⟩
  apply retry_ok_of_first_attempt
  unfold generate_attempt
  simp only [h1, h2, h3, hfb, h5]
  simp

/-- Witness for `tool_fallback_empty_items`: the model invokes the unknown
function "lookup_weather" with an empty argument mapping; no backend is
contacted and a normal reply with an empty item list is returned. -/
theorem tool_fallback_empty_items_witness :
    (generate_chat_response (fun _ => envC10) "hello" [] none).2 = Except.ok
      { role := "assistant", content := "I cannot do that.",
        recommend := false, products := some [], function_called := true,
        function_name := some "lookup_weather" } := by
  obtain ⟨t, ht, h1, h2⟩ := tool_fallback_empty_items (fun _ => envC10) "hello" [] none
    ⟨none, some ⟨"lookup_weather", EvalOutcome.obj (EvalObj.dict [])⟩⟩
    ⟨"lookup_weather", EvalOutcome.obj (EvalObj.dict [])⟩
    [] "I cannot do that." rfl rfl rfl (Or.inl (by decide)) rfl
  rw [ht]
  rfl

theorem generate_attempt_args_raise (env : Env) (m : String) (ch : List TurnDict)
    (sp : Option String) (mm : ModelMsg) (fc : FunctionCall)
    (h1 : env.firstCall = Except.ok mm) (h2 : mm.functionCall = some fc)
    (h3 : fc.argumentsEval = EvalOutcome.raises) :
    (generate_attempt env m ch sp).2 =
      Except.error (GenFailure.toolArgError "eval of tool-call arguments raised") := by
  unfold generate_attempt
  simp only [h1, h2, h3]

theorem retryGo_error_eq (envs : Nat → Env) (msg : String) (ch : List TurnDict)
    (sp : Option String) (E : GenFailure)
    (hall : ∀ i, (generate_attempt (envs i) msg ch sp).2 = Except.error E) :
    ∀ (fuel i : Nat), (retryGo envs msg ch sp i fuel).2 = Except.error E := by
  intro fuel
  induction fuel with
  | zero =>
    intro i
    have he := hall i
    simp only [retryGo]
    rcases hA : generate_attempt (envs i) msg ch sp with ⟨t, ra⟩
    rw [hA] at he
    exact he
  | succ f ih =>
    intro i
    have he := hall i
    rcases hA : generate_attempt (envs i) msg ch sp with ⟨t, ra⟩
    rw [hA] at he
    simp only at he
    subst he
    simp only [retryGo]
    rw [hA]
    rcases hR : retryGo envs msg ch sp (i + 1) f with ⟨ts, rr⟩
    have := ih (i + 1)
    rw [hR] at this
    simp only at this
    subst this
    rfl

/-- Claim C3 (amended): a malformed tool-argument payload is NOT treated as
zero items — `eval` raises inside `generate_chat_response`, the attempt
aborts, the (indiscriminate) retries exhaust, and the failure propagates to
the route layer, which catches it and returns the canned apology reply with
`recommend = false`; the user still receives a reply, but via
caller-side degradation, not via empty-item tool handling. -/
theorem malformed_args_apology :
    (∀ (envs : Nat → Env) (msg : String) (ch : List TurnDict) (sp : Option String),
      (∀ i, ∃ mm fc, (envs i).firstCall = Except.ok mm ∧ mm.functionCall = some fc ∧
        fc.argumentsEval = EvalOutcome.raises) →
      (generate_chat_response envs msg ch sp).2 =
        Except.error (GenFailure.toolArgError "eval of tool-call arguments raised")) ∧
    (chat msEmpty renvC3 dataC3).2.2 = Except.ok
      { role := "assistant",
        content := "I'm sorry, I'm having trouble generating a response right now.",
        recommend := false, products := none, function_called := false,
        function_name := none } := by
  constructor
  · intro envs msg ch sp hraises
    have hall : ∀ i, (generate_attempt (envs i) msg ch sp).2 =
        Except.error (GenFailure.toolArgError "eval of tool-call arguments raised") := by
      intro i
      rcases hraises i with ⟨mm, fc, hf, hfc, ha⟩
      exact generate_attempt_args_raise (envs i) msg ch sp mm fc hf hfc ha
    exact retryGo_error_eq envs msg ch sp _ hall (retryStopAfterAttempt - 1) 0
  · rfl

/-- Witness for `malformed_args_apology`: a constant environment whose
model response carries arguments on which `eval` raises. -/
theorem malformed_args_apology_witness :
    (generate_chat_response (fun _ => envC3x) "hi" [] none).2 =
      Except.error (GenFailure.toolArgError "eval of tool-call arguments raised") :=
  malformed_args_apology.1 (fun _ => envC3x) "hi" [] none
    (fun _ => ⟨⟨none, some ⟨"query_supplements", EvalOutcome.raises⟩⟩,
      ⟨"query_supplements", EvalOutcome.raises⟩, rfl, rfl, rfl⟩)

/-- Claim C4 (amended): each generation request is retried within a budget
of 3 attempts (backoff configured as tenacity
`wait_exponential(multiplier=1, min=4, max=10)`), but EVERY failure is
retried regardless of kind — non-transient failures such as a malformed
response shape included — and after the third failed attempt the last
failure propagates: the retried call is exactly characterized by the first
three attempt outcomes. -/
theorem retry_three_attempts_any_failure (envs : Nat → Env) (message : String)
    (chat_history : List TurnDict) (system_prompt : Option String) :
    generate_chat_response envs message chat_history system_prompt =
      match generate_attempt (envs 0) message chat_history system_prompt,
            generate_attempt (envs 1) message chat_history system_prompt,
            generate_attempt (envs 2) message chat_history system_prompt with
      | (t0, Except.ok r), _, _ => ([t0], Except.ok r)
      | (t0, Except.error _), (t1, Except.ok r), _ => ([t0, t1], Except.ok r)
      | (t0, Except.error _), (t1, Except.error _), (t2, r2) => ([t0, t1, t2], r2) := by
  rcases h0 : generate_attempt (envs 0) message chat_history system_prompt with ⟨t0, r0⟩
  rcases h1 : generate_attempt (envs 1) message chat_history system_prompt with ⟨t1, r1⟩
  rcases h2 : generate_attempt (envs 2) message chat_history system_prompt with ⟨t2, r2⟩
  show retryGo envs message chat_history system_prompt 0 (retryStopAfterAttempt - 1) = _
  have he : retryStopAfterAttempt - 1 = 2 := rfl
  rw [he]
  cases r0 with
  | ok resp =>
    simp only [retryGo]
    rw [h0]
  | error e0 =>
    cases r1 with
    | ok resp =>
      simp only [retryGo]
      rw [h0, h1]
    | error e1 =>
      cases r2 with
      | ok resp =>
        simp only [retryGo]
        rw [h0, h1, h2]
      | error e2 =>
        simp only [retryGo]
        rw [h0, h1, h2]
